import Mathlib

/-!
Verification of the postal-code-to-weather-region reconciliation engine
(`app/services/postal_code_weather_mapping_service.py`).

The embedding models the database tables as Lean lists: the `PostalCode`
table is a `List PostalCode` and the `WeatherArea` table a
`List WeatherArea`; an SQL query with a `WHERE` clause followed by
`.first()` becomes `List.find?` over the table in row order, and
`LIKE '%x%'` becomes substring containment.  The two Python regular
expressions of the service are embedded by their exact semantics on the
character list of the input (Python regexes are greedy and backtracking,
so `.+市` captures up to the last eligible designator).  Machine-level
concerns (session handles, logging) are dropped; commit failures and
matcher exceptions, which the orchestrator catches, are modelled by
explicit oracles.
-/

/-- Row of the postal-code table (`app/models/postal_code.py`): the fields
the reconciliation engine reads or writes. -/
structure PostalCode where
  postal_code : String
  prefecture : String
  city : String
  town : String
  weather_area_id : Option Nat
deriving DecidableEq, Repr

/-- Row of the weather-area table (`app/models/weather_area.py`): the fields
the reconciliation engine reads. -/
structure WeatherArea where
  id : Nat
  prefecture : String
  city : String
deriving DecidableEq, Repr

/-- Boolean list-prefix test used to implement substring containment. -/
def isPrefixB : List Char → List Char → Bool
  | [], _ => true
  | _ :: _, [] => false
  | a :: as, b :: bs => a == b && isPrefixB as bs

/-- Boolean list-infix test used to implement substring containment. -/
def isInfixB (n : List Char) : List Char → Bool
  | [] => n.isEmpty
  | b :: bs => isPrefixB n (b :: bs) || isInfixB n bs

/-- Python's `needle in hay` on strings (also SQL `LIKE '%needle%'`). -/
def containsSub (hay needle : String) : Bool :=
  isInfixB needle.data hay.data

/-- Index of the last position `i < n` satisfying `p`, if any.  Python's
greedy `.+` backtracking picks the last eligible occurrence, which is what
the regex embeddings below need. -/
def lastSat (p : Nat → Bool) (n : Nat) : Option Nat :=
  ((List.range n).filter p).getLast?

/-- Semantics of `re.match(r'(.+市)(.+区)$', city_name)` from
`_normalize_city_name` (service lines 216-219): the match succeeds iff the
string ends in `区` and some index `i` holds `市` with at least one
character before it and at least one character between it and the final
`区`; greediness makes group 1 end at the last such `市`.  Returns that
index. -/
def cityWardSplitEnd (cs : List Char) : Option Nat :=
  if cs.getLast? = some '区' then
    lastSat (fun i => decide (1 ≤ i ∧ i + 3 ≤ cs.length ∧ cs[i]? = some '市')) cs.length
  else
    none

/-- Embedding of `_normalize_city_name` (service lines 197-229): strip a
trailing ward from a `...市...区` locality, returning the `...市` part; the
second pattern `(.+区)$` in the source returns the input unchanged, as does
the final fallthrough, so both collapse to the identity branch here. -/
def _normalize_city_name (s : String) : String :=
  match cityWardSplitEnd s.data with
  | some i => ⟨s.data.take (i + 1)⟩
  | none => s

/-- Semantics of `re.match(r'.+郡(.+[町村市])$', city_name)` from
`_remove_county_prefix` (service lines 310-311): the match succeeds iff the
last character is a town/village/city designator and some index `i ≥ 1`
holds `郡` with at least one character between it and the final designator;
greediness picks the last such `郡`.  Returns that index. -/
def gunSplit (cs : List Char) : Option Nat :=
  if cs.getLast? = some '町' ∨ cs.getLast? = some '村' ∨ cs.getLast? = some '市' then
    lastSat (fun i => decide (1 ≤ i ∧ i + 3 ≤ cs.length ∧ cs[i]? = some '郡')) cs.length
  else
    none

/-- Embedding of `_remove_county_prefix` (service lines 297-316): drop the
county (`郡`) prefix, returning the remainder after the county designator;
`none` models the Python `None` returned when the pattern does not match. -/
def removeCountyPrefix (s : String) : Option String :=
  match gunSplit s.data with
  | some i => some ⟨s.data.drop (i + 1)⟩
  | none => none

/-- Embedding of `_normalize_character_variants` (service lines 318-334):
`city_name.replace('ケ', 'ヶ')`, a single-character replacement. -/
def _normalize_character_variants (s : String) : String :=
  ⟨s.data.map (fun c => if c = 'ケ' then 'ヶ' else c)⟩

lemma lastSat_isSome_spec {p : Nat → Bool} {n i : Nat} (h : lastSat p n = some i) :
    p i = true ∧ i < n := by
  unfold lastSat at h
  rw [List.getLast?_eq_getElem?] at h
  have hmem : i ∈ (List.range n).filter p := List.getElem?_mem h
  have hm := List.mem_filter.mp hmem
  exact ⟨hm.2, List.mem_range.mp hm.1⟩

lemma lastSat_eq_none {p : Nat → Bool} {n : Nat} (h : ∀ i, i < n → p i = false) :
    lastSat p n = none := by
  unfold lastSat
  have : (List.range n).filter p = [] := by
    apply List.filter_eq_nil_iff.mpr
    intro a ha
    simp [h a (List.mem_range.mp ha)]
  rw [this]
  rfl

lemma cityWardSplitEnd_spec {cs : List Char} {i : Nat} (h : cityWardSplitEnd cs = some i) :
    cs.getLast? = some '区' ∧ 1 ≤ i ∧ i + 3 ≤ cs.length ∧ cs[i]? = some '市' := by
  unfold cityWardSplitEnd at h
  split at h
  case isTrue hlast =>
    have hp := (lastSat_isSome_spec h).1
    have := of_decide_eq_true hp
    exact ⟨hlast, this.1, this.2.1, this.2.2⟩
  case isFalse => exact absurd h (by simp)

lemma take_getLast_of_split {cs : List Char} {i : Nat} (h : cityWardSplitEnd cs = some i) :
    (cs.take (i + 1)).getLast? = some '市' := by
  obtain ⟨-, -, h3, hget⟩ := cityWardSplitEnd_spec h
  have hlen : (cs.take (i + 1)).length = i + 1 := by
    rw [List.length_take]
    omega
  rw [List.getLast?_eq_getElem?, hlen]
  simp only [Nat.add_sub_cancel]
  rw [List.getElem?_take]
  simp [hget]

/-- C7: the ward-strip normalizer is idempotent — applying
`_normalize_city_name` twice yields the same result as applying it once. -/
theorem ward_strip_idempotent (s : String) :
    _normalize_city_name (_normalize_city_name s) = _normalize_city_name s := by
  cases h : cityWardSplitEnd s.data with
  | none =>
    have h1 : _normalize_city_name s = s := by
      unfold _normalize_city_name
      rw [h]
    rw [h1]
    exact h1
  | some i =>
    have h1 : _normalize_city_name s = ⟨s.data.take (i + 1)⟩ := by
      unfold _normalize_city_name
      rw [h]
    rw [h1]
    have hlast : (s.data.take (i + 1)).getLast? = some '市' := take_getLast_of_split h
    have hsplit : cityWardSplitEnd (String.mk (s.data.take (i + 1))).data = none := by
      unfold cityWardSplitEnd
      have hdata : (String.mk (s.data.take (i + 1))).data = s.data.take (i + 1) := rfl
      rw [hdata, hlast]
      rw [if_neg (by decide)]
    unfold _normalize_city_name
    rw [hsplit]

/-- C10: a locality that ends in the ward designator `区` but contains no
city designator `市` (a bare ward name, e.g. a capital-city special ward)
is returned unchanged by the ward-strip normalizer. -/
theorem bare_ward_not_stripped (s : String) (hk : s.data.getLast? = some '区')
    (hs : '市' ∉ s.data) : _normalize_city_name s = s := by
  have hsplit : cityWardSplitEnd s.data = none := by
    unfold cityWardSplitEnd
    rw [hk, if_pos rfl]
    apply lastSat_eq_none
    intro i _
    apply decide_eq_false
    rintro ⟨-, -, hget⟩
    exact hs (List.getElem?_mem hget)
  unfold _normalize_city_name
  rw [hsplit]

/-- Witness for C10 at the concrete special ward 千代田区. -/
theorem bare_ward_not_stripped_witness : _normalize_city_name "千代田区" = "千代田区" :=
  bare_ward_not_stripped "千代田区" (by decide) (by decide)

lemma gunSplit_spec {cs : List Char} {i : Nat} (h : gunSplit cs = some i) :
    1 ≤ i ∧ i + 3 ≤ cs.length ∧ cs[i]? = some '郡' := by
  unfold gunSplit at h
  split at h
  case isTrue => exact of_decide_eq_true (lastSat_isSome_spec h).1
  case isFalse => exact absurd h (by simp)

/-- C6: the county-prefix-removal normalizer returns the no-match signal
`none` when the input has no county designator `郡`, and also when the input
does not end in a town/village/city designator (`町`, `村`, `市`); and when
it does match it returns a remainder that is neither empty nor the whole
input. -/
theorem county_removal_no_match (s : String) :
    ('郡' ∉ s.data → removeCountyPrefix s = none) ∧
    ((s.data.getLast? ≠ some '町' ∧ s.data.getLast? ≠ some '村' ∧
        s.data.getLast? ≠ some '市') → removeCountyPrefix s = none) ∧
    (∀ r : String, removeCountyPrefix s = some r → r ≠ "" ∧ r ≠ s) := by
  refine ⟨?_, ?_, ?_⟩
  · intro hgun
    unfold removeCountyPrefix
    have hsplit : gunSplit s.data = none := by
      unfold gunSplit
      split
      · apply lastSat_eq_none
        intro i _
        apply decide_eq_false
        rintro ⟨-, -, hget⟩
        exact hgun (List.getElem?_mem hget)
      · rfl
    rw [hsplit]
  · intro hlast
    unfold removeCountyPrefix
    have hsplit : gunSplit s.data = none := by
      unfold gunSplit
      rw [if_neg]
      push_neg
      exact hlast
    rw [hsplit]
  · intro r hr
    unfold removeCountyPrefix at hr
    cases h : gunSplit s.data with
    | none => rw [h] at hr; exact absurd hr (by simp)
    | some i =>
      rw [h] at hr
      have hi := gunSplit_spec h
      have hrdata : r.data = s.data.drop (i + 1) := by
        have := Option.some.inj hr
        rw [← this]
      have hlen : r.data.length = s.data.length - (i + 1) := by
        rw [hrdata, List.length_drop]
      constructor
      · intro he
        rw [he] at hlen
        have : ("" : String).data.length = 0 := rfl
        omega
      · intro he
        rw [he] at hlen
        omega

/-- Witness for C6: no county designator, wrong trailing designator, and a
successful match with non-empty, strictly smaller remainder. -/
theorem county_removal_no_match_witness :
    removeCountyPrefix "上野" = none ∧
    removeCountyPrefix "余市郡仁木" = none ∧
    ("日高町" ≠ ("" : String) ∧ "日高町" ≠ "沙流郡日高町") :=
  ⟨(county_removal_no_match "上野").1 (by decide),
   (county_removal_no_match "余市郡仁木").2.1 (by decide),
   (county_removal_no_match "沙流郡日高町").2.2 "日高町" (by decide)⟩

/-- Semantics of `re.search(r'(.+市)(.+区)', postal_city)` from
`_find_regional_weather_area` (service line 245): unanchored, so the match
succeeds iff some index `i ≥ 1` holds `市` and some index `j ≥ i + 2` holds
`区`; greediness puts the end of group 1 at the last such `市` and the end
of group 2 at the last `区` after it.  Returns both indices. -/
def wardSearch (cs : List Char) : Option (Nat × Nat) :=
  match lastSat (fun i => decide (1 ≤ i ∧ cs[i]? = some '市' ∧
      ∃ j ∈ List.range cs.length, i + 2 ≤ j ∧ cs[j]? = some '区')) cs.length with
  | none => none
  | some i =>
    match lastSat (fun j => decide (i + 2 ≤ j ∧ cs[j]? = some '区')) cs.length with
    | none => none
    | some j => some (i, j)

/-- Group 1 of the tier-6 regex: the city part, up to and including the
matched `市`. -/
def wardSearchCity (s : String) (i : Nat) : String :=
  ⟨s.data.take (i + 1)⟩

/-- Group 2 of the tier-6 regex: the ward part, from after the matched `市`
up to and including the matched `区`. -/
def wardSearchWard (s : String) (i j : Nat) : String :=
  ⟨(s.data.drop (i + 1)).take (j - i)⟩

/-- Entries of the `region_mapping` dict literal of
`_find_regional_weather_area` (service lines 253-275), in source order.
The Python literal repeats several keys (it is written as one flat dict
with per-city comment blocks), and a Python dict literal keeps, for a
repeated key, the value of its last occurrence. -/
def region_mapping_entries : List (String × String) :=
  [("青葉区", "西部"), ("宮城野区", "東部"), ("若林区", "東部"), ("太白区", "西部"),
   ("泉区", "西部"),
   ("葵区", "北部"), ("駿河区", "南部"), ("清水区", "南部"),
   ("中央区", "南部"), ("東区", "南部"), ("西区", "南部"), ("南区", "南部"),
   ("北区", "北部"), ("浜北区", "北部"), ("天竜区", "北部"),
   ("中央区", "西部"), ("北区", "西部"), ("東区", "東部"), ("白石区", "東部"),
   ("豊平区", "西部"), ("南区", "西部"), ("西区", "西部"), ("厚別区", "東部"),
   ("手稲区", "西部"), ("清田区", "東部"),
   ("鶴見区", "東部"), ("神奈川区", "東部"), ("西区", "西部"), ("中区", "西部"),
   ("南区", "西部"), ("保土ヶ谷区", "西部"), ("磯子区", "東部"), ("金沢区", "東部"),
   ("港北区", "北部"), ("戸塚区", "西部"), ("港南区", "西部"), ("旭区", "西部"),
   ("緑区", "北部"), ("瀬谷区", "西部"), ("栄区", "西部"), ("泉区", "西部"),
   ("青葉区", "北部"), ("都筑区", "北部")]

/-- Python's `region_mapping.get(ward_name)`: lookup in the dict built from
the literal, i.e. the value of the LAST entry with the given key. -/
def region_mapping_get (ward : String) : Option String :=
  (region_mapping_entries.reverse.find? (fun e => e.1 == ward)).map (fun e => e.2)

/-- Embedding of `_find_regional_weather_area` (service lines 231-295):
extract city and ward from the original locality, look the ward up in the
flat `region_mapping` dict, and return the first area containing both the
city name and the expected region label, falling back (both when the ward
is unknown and when no area carries the expected label) to the first area
containing the city name. -/
def _find_regional_weather_area (postal_city : String) (weather_areas : List WeatherArea) :
    Option WeatherArea :=
  match wardSearch postal_city.data with
  | none => none
  | some (i, j) =>
    match region_mapping_get (wardSearchWard postal_city i j) with
    | none =>
      weather_areas.find? (fun wa => containsSub wa.city (wardSearchCity postal_city i))
    | some expected_region =>
      match weather_areas.find? (fun wa =>
          containsSub wa.city (wardSearchCity postal_city i) &&
          containsSub wa.city expected_region) with
      | some wa => some wa
      | none =>
        weather_areas.find? (fun wa => containsSub wa.city (wardSearchCity postal_city i))

/-- Designated-city list of tier 6 (service line 145). -/
def designatedCities : List String :=
  ["仙台市", "静岡市", "浜松市", "札幌市", "横浜市", "川崎市", "相模原市", "新潟市",
   "名古屋市", "京都市", "大阪市", "堺市", "神戸市", "岡山市", "広島市", "北九州市",
   "福岡市", "熊本市"]

/-- Embedding of `_map_tsushima_region` (service lines 336-379).  In the
source, a hit in the upper (resp. lower) town list triggers a search for an
area containing 上対馬 (resp. 下対馬) and `break`s out on failure, falling
through to the next stage, so a failed search continues exactly like a
missed list. -/
def _map_tsushima_region (town : String) (weather_areas : List WeatherArea) :
    Option WeatherArea :=
  match (if ["上県町", "上対馬町"].any (fun t => containsSub town t) then
      weather_areas.find? (fun wa => containsSub wa.city "上対馬")
    else none) with
  | some wa => some wa
  | none =>
    match (if ["厳原町", "豊玉町", "美津島町", "峰町"].any (fun t => containsSub town t) then
        weather_areas.find? (fun wa => containsSub wa.city "下対馬")
      else none) with
    | some wa => some wa
    | none => weather_areas.find? (fun wa => containsSub wa.city "下対馬")

/-- Tier 1 (service lines 91-100): exact match on prefecture and city. -/
def tier1 (table : List WeatherArea) (pc : PostalCode) : Option WeatherArea :=
  table.find? (fun wa => wa.prefecture == pc.prefecture && wa.city == pc.city)

/-- Tier 2 (service lines 102-114): exact match on the ward-stripped city. -/
def tier2 (table : List WeatherArea) (pc : PostalCode) : Option WeatherArea :=
  table.find? (fun wa => wa.prefecture == pc.prefecture &&
    wa.city == _normalize_city_name pc.city)

/-- Tier 3 (service lines 116-125): first area whose city contains the
postal city as a substring. -/
def tier3 (table : List WeatherArea) (pc : PostalCode) : Option WeatherArea :=
  table.find? (fun wa => wa.prefecture == pc.prefecture && containsSub wa.city pc.city)

/-- Rows of the weather-area table in the postal record's prefecture, in row
order (service lines 128-132). -/
def byPrefecture (table : List WeatherArea) (pc : PostalCode) : List WeatherArea :=
  table.filter (fun wa => wa.prefecture == pc.prefecture)

/-- Tier 4 (service lines 127-136): first area whose city is contained in
the postal city. -/
def tier4 (table : List WeatherArea) (pc : PostalCode) : Option WeatherArea :=
  (byPrefecture table pc).find? (fun wa => containsSub pc.city wa.city)

/-- Tier 5 (service lines 138-142): first area whose ward-stripped city
equals the ward-stripped postal city. -/
def tier5 (table : List WeatherArea) (pc : PostalCode) : Option WeatherArea :=
  (byPrefecture table pc).find? (fun wa =>
    _normalize_city_name wa.city == _normalize_city_name pc.city)

/-- Tier 6 (service lines 144-148): designated-city regional inference. -/
def tier6 (table : List WeatherArea) (pc : PostalCode) : Option WeatherArea :=
  if designatedCities.contains (_normalize_city_name pc.city) then
    _find_regional_weather_area pc.city (byPrefecture table pc)
  else none

/-- Tier 7 (service lines 150-174): county-prefix removal, then exact match
and, failing that, forward substring match on the remainder. -/
def tier7 (table : List WeatherArea) (pc : PostalCode) : Option WeatherArea :=
  if containsSub pc.city "郡" then
    match removeCountyPrefix pc.city with
    | some simplified_city =>
      match table.find? (fun wa => wa.prefecture == pc.prefecture &&
          wa.city == simplified_city) with
      | some wa => some wa
      | none =>
        table.find? (fun wa => wa.prefecture == pc.prefecture &&
          containsSub wa.city simplified_city)
    | none => none
  else none

/-- Tier 8 (service lines 176-187): character-variant normalization, then
exact match when the normalization changed the string. -/
def tier8 (table : List WeatherArea) (pc : PostalCode) : Option WeatherArea :=
  if _normalize_character_variants pc.city ≠ pc.city then
    table.find? (fun wa => wa.prefecture == pc.prefecture &&
      wa.city == _normalize_character_variants pc.city)
  else none

/-- Tier 9 (service lines 189-193): the 対馬市 special case. -/
def tier9 (table : List WeatherArea) (pc : PostalCode) : Option WeatherArea :=
  if pc.prefecture == "長崎県" && pc.city == "対馬市" then
    _map_tsushima_region pc.town (byPrefecture table pc)
  else none

/-- First non-`none` element of a list of options; models the early-return
cascade of the matcher. -/
def firstSome : List (Option α) → Option α
  | [] => none
  | o :: rest =>
    match o with
    | some a => some a
    | none => firstSome rest

/-- Embedding of `_find_weather_area_for_postal_code` (service lines
81-195): the nine-tier cascade with early return on the first hit. -/
def _find_weather_area_for_postal_code (table : List WeatherArea) (pc : PostalCode) :
    Option WeatherArea :=
  match tier1 table pc with
  | some wa => some wa
  | none =>
  match tier2 table pc with
  | some wa => some wa
  | none =>
  match tier3 table pc with
  | some wa => some wa
  | none =>
  match tier4 table pc with
  | some wa => some wa
  | none =>
  match tier5 table pc with
  | some wa => some wa
  | none =>
  match tier6 table pc with
  | some wa => some wa
  | none =>
  match tier7 table pc with
  | some wa => some wa
  | none =>
  match tier8 table pc with
  | some wa => some wa
  | none =>
  match tier9 table pc with
  | some wa => some wa
  | none => none

/-- Modelled from the spec: tier 6 is described as using "a fixed per-city
table mapping ward name → expected region label", resolving a ward name
within its own city.  The source writes `region_mapping` as one flat dict
literal whose entries are grouped by per-city comment blocks (仙台市,
静岡市, 浜松市, 札幌市, 横浜市); this definition reads those blocks as the
per-city table that the specification describes, for comparison with the
flat dict the code actually builds. -/
def perCityRegionTable : List (String × List (String × String)) :=
  [("仙台市", [("青葉区", "西部"), ("宮城野区", "東部"), ("若林区", "東部"),
      ("太白区", "西部"), ("泉区", "西部")]),
   ("静岡市", [("葵区", "北部"), ("駿河区", "南部"), ("清水区", "南部")]),
   ("浜松市", [("中央区", "南部"), ("東区", "南部"), ("西区", "南部"), ("南区", "南部"),
      ("北区", "北部"), ("浜北区", "北部"), ("天竜区", "北部")]),
   ("札幌市", [("中央区", "西部"), ("北区", "西部"), ("東区", "東部"), ("白石区", "東部"),
      ("豊平区", "西部"), ("南区", "西部"), ("西区", "西部"), ("厚別区", "東部"),
      ("手稲区", "西部"), ("清田区", "東部")]),
   ("横浜市", [("鶴見区", "東部"), ("神奈川区", "東部"), ("西区", "西部"), ("中区", "西部"),
      ("南区", "西部"), ("保土ヶ谷区", "西部"), ("磯子区", "東部"), ("金沢区", "東部"),
      ("港北区", "北部"), ("戸塚区", "西部"), ("港南区", "西部"), ("旭区", "西部"),
      ("緑区", "北部"), ("瀬谷区", "西部"), ("栄区", "西部"), ("泉区", "西部"),
      ("青葉区", "北部"), ("都筑区", "北部")])]

/-- Lookup in the spec-modelled per-city table: the expected region label
that the table assigns to a ward name for that specific city. -/
def perCityLookup (city ward : String) : Option String :=
  match perCityRegionTable.find? (fun e => e.1 == city) with
  | some e => (e.2.find? (fun p => p.1 == ward)).map (fun p => p.2)
  | none => none

/-- Input for the C2 counterexample: the 仙台市 ward 青葉区, which the
source's dict literal also lists under 横浜市 with a different label. -/
def sendaiAobaPostal : PostalCode :=
  { postal_code := "9800000", prefecture := "宮城県", city := "仙台市青葉区",
    town := "一番町", weather_area_id := none }

/-- Weather-area table for the C2 counterexample, eastern area first. -/
def sendaiTable : List WeatherArea :=
  [{ id := 1, prefecture := "宮城県", city := "仙台市東部" },
   { id := 2, prefecture := "宮城県", city := "仙台市西部" }]

/-- C2 counterexample: for the designated city 仙台市, the per-city table
assigns 青葉区 the label 西部, and the first region whose locality contains
both 仙台市 and 西部 is the 仙台市西部 row — yet the matcher returns the
仙台市東部 row, because the code looks 青葉区 up in one flat dict in which
the later 横浜市 entry (青葉区 ↦ 北部) has overwritten the 仙台市 one, and
no row carries 北部. -/
theorem tier6_not_per_city_cex :
    _normalize_city_name sendaiAobaPostal.city = "仙台市" ∧
    designatedCities.contains "仙台市" = true ∧
    perCityLookup "仙台市" "青葉区" = some "西部" ∧
    sendaiTable.find? (fun wa => containsSub wa.city "仙台市" && containsSub wa.city "西部") =
      some { id := 2, prefecture := "宮城県", city := "仙台市西部" } ∧
    region_mapping_get "青葉区" = some "北部" ∧
    _find_weather_area_for_postal_code sendaiTable sendaiAobaPostal =
      some { id := 1, prefecture := "宮城県", city := "仙台市東部" } ∧
    ({ id := 1, prefecture := "宮城県", city := "仙台市東部" } : WeatherArea) ≠
      { id := 2, prefecture := "宮城県", city := "仙台市西部" } :=
  ⟨by decide, by decide, by decide, by decide, by decide, by decide, by decide⟩

/-- C2 (amended): in tier 6 the ward name extracted from the original
locality is looked up in a single flat ward-name → label dict shared by all
designated cities (a ward name listed under several cities keeps only the
label of its last occurrence in the literal, so the same ward name in two
different cities resolves to the same label, not a city-specific one); when
the lookup yields a label and some region in the division contains both the
city name and that label, the matcher returns the first such region. -/
theorem tier6_flat_table_lookup (table : List WeatherArea) (pc : PostalCode)
    (i j : Nat) (label : String) (wa : WeatherArea)
    (hgate : designatedCities.contains (_normalize_city_name pc.city) = true)
    (hsearch : wardSearch pc.city.data = some (i, j))
    (hlabel : region_mapping_get (wardSearchWard pc.city i j) = some label)
    (hfind : (byPrefecture table pc).find? (fun w =>
        containsSub w.city (wardSearchCity pc.city i) && containsSub w.city label) =
      some wa) :
    tier6 table pc = some wa := by
  unfold tier6
  rw [if_pos hgate]
  unfold _find_regional_weather_area
  simp only [hsearch, hlabel, hfind]

/-- Witness for the amended C2 at 横浜市鶴見区. -/
theorem tier6_flat_table_lookup_witness :
    tier6 [{ id := 7, prefecture := "神奈川県", city := "横浜市東部" }]
      { postal_code := "2300000", prefecture := "神奈川県", city := "横浜市鶴見区",
        town := "", weather_area_id := none } =
      some { id := 7, prefecture := "神奈川県", city := "横浜市東部" } :=
  tier6_flat_table_lookup _ _ 2 5 "東部" _ (by decide) (by decide) (by decide) (by decide)

/-- C9: in tier 6 the loose fallback (first region in the division whose
locality contains the city name, ignoring the region label) is applied both
when the extracted ward name is absent from the ward-to-region dict and when
the ward name is present yet no region in the division contains both the
city name and the expected label. -/
theorem tier6_loose_fallback (postal_city : String) (weather_areas : List WeatherArea)
    (i j : Nat) (hsearch : wardSearch postal_city.data = some (i, j)) :
    (region_mapping_get (wardSearchWard postal_city i j) = none →
      _find_regional_weather_area postal_city weather_areas =
        weather_areas.find? (fun wa => containsSub wa.city (wardSearchCity postal_city i))) ∧
    (∀ label : String, region_mapping_get (wardSearchWard postal_city i j) = some label →
      weather_areas.find? (fun wa => containsSub wa.city (wardSearchCity postal_city i) &&
        containsSub wa.city label) = none →
      _find_regional_weather_area postal_city weather_areas =
        weather_areas.find? (fun wa => containsSub wa.city (wardSearchCity postal_city i))) := by
  constructor
  · intro hnone
    unfold _find_regional_weather_area
    simp only [hsearch, hnone]
  · intro label hlabel hmiss
    unfold _find_regional_weather_area
    simp only [hsearch, hlabel, hmiss]

/-- Witness for C9: 秋葉区 is absent from the dict (新潟市秋葉区 falls back
to the first 新潟市 row), and 青葉区 resolves to 北部 which no 仙台市 row
carries (仙台市青葉区 falls back to the first 仙台市 row). -/
theorem tier6_loose_fallback_witness :
    _find_regional_weather_area "新潟市秋葉区" [{ id := 3, prefecture := "新潟県", city := "新潟市" }] =
      some { id := 3, prefecture := "新潟県", city := "新潟市" } ∧
    _find_regional_weather_area "仙台市青葉区" [{ id := 1, prefecture := "宮城県", city := "仙台市東部" }] =
      some { id := 1, prefecture := "宮城県", city := "仙台市東部" } :=
  ⟨((tier6_loose_fallback "新潟市秋葉区" _ 2 5 (by decide)).1 (by decide)).trans (by decide),
   ((tier6_loose_fallback "仙台市青葉区" _ 2 5 (by decide)).2 "北部" (by decide) (by decide)).trans
     (by decide)⟩

/-- C5: the matcher is exactly the first-hit cascade of the nine tiers in
order — in particular a tier-1 exact hit is always the final answer, no
matter what any later tier would return. -/
theorem tier_precedence (table : List WeatherArea) (pc : PostalCode) :
    _find_weather_area_for_postal_code table pc =
      firstSome [tier1 table pc, tier2 table pc, tier3 table pc, tier4 table pc,
        tier5 table pc, tier6 table pc, tier7 table pc, tier8 table pc, tier9 table pc] ∧
    ∀ wa : WeatherArea, tier1 table pc = some wa →
      _find_weather_area_for_postal_code table pc = some wa := by
  constructor
  · cases h1 : tier1 table pc with
    | some wa => simp [_find_weather_area_for_postal_code, firstSome, h1]
    | none =>
      cases h2 : tier2 table pc with
      | some wa => simp [_find_weather_area_for_postal_code, firstSome, h1, h2]
      | none =>
        cases h3 : tier3 table pc with
        | some wa => simp [_find_weather_area_for_postal_code, firstSome, h1, h2, h3]
        | none =>
          cases h4 : tier4 table pc with
          | some wa => simp [_find_weather_area_for_postal_code, firstSome, h1, h2, h3, h4]
          | none =>
            cases h5 : tier5 table pc with
            | some wa => simp [_find_weather_area_for_postal_code, firstSome, h1, h2, h3, h4, h5]
            | none =>
              cases h6 : tier6 table pc with
              | some wa => simp [_find_weather_area_for_postal_code, firstSome, h1, h2, h3, h4, h5, h6]
              | none =>
                cases h7 : tier7 table pc with
                | some wa => simp [_find_weather_area_for_postal_code, firstSome, h1, h2, h3, h4, h5, h6, h7]
                | none =>
                  cases h8 : tier8 table pc with
                  | some wa => simp [_find_weather_area_for_postal_code, firstSome, h1, h2, h3, h4, h5, h6, h7, h8]
                  | none =>
                    cases h9 : tier9 table pc with
                    | some wa => simp [_find_weather_area_for_postal_code, firstSome, h1, h2, h3, h4, h5, h6, h7, h8, h9]
                    | none => simp [_find_weather_area_for_postal_code, firstSome, h1, h2, h3, h4, h5, h6, h7, h8, h9]
  · intro wa h1
    unfold _find_weather_area_for_postal_code
    rw [h1]

/-- Witness for C5: a table where tier 1 and tier 3 hit different rows; the
matcher returns the tier-1 row. -/
theorem tier_precedence_witness :
    tier1 [{ id := 1, prefecture := "X県", city := "B市南部" },
        { id := 2, prefecture := "X県", city := "B市" }]
      { postal_code := "0000000", prefecture := "X県", city := "B市", town := "",
        weather_area_id := none } = some { id := 2, prefecture := "X県", city := "B市" } ∧
    tier3 [{ id := 1, prefecture := "X県", city := "B市南部" },
        { id := 2, prefecture := "X県", city := "B市" }]
      { postal_code := "0000000", prefecture := "X県", city := "B市", town := "",
        weather_area_id := none } = some { id := 1, prefecture := "X県", city := "B市南部" } ∧
    ({ id := 1, prefecture := "X県", city := "B市南部" } : WeatherArea) ≠
      { id := 2, prefecture := "X県", city := "B市" } ∧
    _find_weather_area_for_postal_code
      [{ id := 1, prefecture := "X県", city := "B市南部" },
        { id := 2, prefecture := "X県", city := "B市" }]
      { postal_code := "0000000", prefecture := "X県", city := "B市", town := "",
        weather_area_id := none } = some { id := 2, prefecture := "X県", city := "B市" } :=
  ⟨by decide, by decide, by decide,
   (tier_precedence _ _).2 { id := 2, prefecture := "X県", city := "B市" } (by decide)⟩

/-- Run-level statistics returned by `map_postal_codes_to_weather_areas`
(service lines 71-76). -/
structure MappingResult where
  total_processed : Nat
  mapped : Nat
  not_found : Nat
  errors : Nat
deriving DecidableEq, Repr

/-- Matcher oracle for one run: the service calls
`_find_weather_area_for_postal_code` inside `try`/`except`, so a call
either returns an optional area (`Except.ok`) or raises
(`Except.error`).  The pure matcher above is the `Except.ok` case; the
oracle form lets the error-handling claims quantify over raising calls. -/
def matcherStep (find : PostalCode → Except Unit (Option WeatherArea))
    (pc : PostalCode) : PostalCode :=
  match find pc with
  | Except.ok (some wa) => { pc with weather_area_id := some wa.id }
  | _ => pc

/-- True when the matcher raises on this record. -/
def isMatcherError (find : PostalCode → Except Unit (Option WeatherArea))
    (pc : PostalCode) : Bool :=
  match find pc with
  | Except.error _ => true
  | _ => false

/-- True when the matcher returns an area for this record. -/
def isMatched (find : PostalCode → Except Unit (Option WeatherArea))
    (pc : PostalCode) : Bool :=
  match find pc with
  | Except.ok (some _) => true
  | _ => false

/-- True when the matcher returns no area for this record. -/
def isNotFound (find : PostalCode → Except Unit (Option WeatherArea))
    (pc : PostalCode) : Bool :=
  match find pc with
  | Except.ok none => true
  | _ => false

/-- Inner per-record loop of one batch (service lines 45-60): a matched
record gets its `weather_area_id` assigned and bumps `mapped`; a miss bumps
`not_found`; a raised exception is caught, bumps `errors`, leaves the
record untouched, and the loop continues.  Returns the batch after the
loop and the three counter increments `(mapped, not_found, errors)`. -/
def processBatch (find : PostalCode → Except Unit (Option WeatherArea)) :
    List PostalCode → List PostalCode × Nat × Nat × Nat
  | [] => ([], 0, 0, 0)
  | pc :: rest =>
    let res := processBatch find rest
    match find pc with
    | Except.error _ => (pc :: res.1, res.2.1, res.2.2.1, res.2.2.2 + 1)
    | Except.ok none => (pc :: res.1, res.2.1, res.2.2.1 + 1, res.2.2.2)
    | Except.ok (some wa) =>
      ({ pc with weather_area_id := some wa.id } :: res.1, res.2.1 + 1, res.2.2.1, res.2.2.2)

/-- Batch partitioning of `for i in range(0, len(...), batch_size)` with
slicing (service lines 41-43); the fuel argument is the input length, which
bounds the number of slices. -/
def chunksGo (bs : Nat) : Nat → List PostalCode → List (List PostalCode)
  | 0, _ => []
  | _ + 1, [] => []
  | fuel + 1, pc :: rest => ((pc :: rest).take bs) :: chunksGo bs fuel ((pc :: rest).drop bs)

/-- List of batches of size `bs` (the last one possibly shorter). -/
def chunks (bs : Nat) (l : List PostalCode) : List (List PostalCode) :=
  chunksGo bs l.length l

/-- Outer batch loop (service lines 42-69): each batch is processed, then
committed; `commitOk k` tells whether the commit of batch `k` succeeds.  On
failure the session is rolled back — the batch's in-memory assignments are
reverted, so the original batch contents survive — the whole batch size is
added to `errors`, and the run continues with the next batch. -/
def runBatches (find : PostalCode → Except Unit (Option WeatherArea))
    (commitOk : Nat → Bool) : Nat → List (List PostalCode) →
    List PostalCode × Nat × Nat × Nat
  | _, [] => ([], 0, 0, 0)
  | k, b :: bs =>
    let pb := processBatch find b
    let rest := runBatches find commitOk (k + 1) bs
    if commitOk k then
      (pb.1 ++ rest.1, pb.2.1 + rest.2.1, pb.2.2.1 + rest.2.2.1, pb.2.2.2 + rest.2.2.2)
    else
      (b ++ rest.1, pb.2.1 + rest.2.1, pb.2.2.1 + rest.2.2.1, pb.2.2.2 + b.length + rest.2.2.2)

/-- Records selected by the opening query of the run (service lines 30-32):
those with no weather-area reference. -/
def unmappedOf (db : List PostalCode) : List PostalCode :=
  db.filter (fun pc => pc.weather_area_id.isNone)

/-- Embedding of `map_postal_codes_to_weather_areas` (service lines 20-79):
select the unmapped records, process them in batches of 100, and return the
post-run record states together with the statistics record. -/
def map_postal_codes_to_weather_areas
    (find : PostalCode → Except Unit (Option WeatherArea)) (commitOk : Nat → Bool)
    (db : List PostalCode) : List PostalCode × MappingResult :=
  let unmapped := unmappedOf db
  let r := runBatches find commitOk 0 (chunks 100 unmapped)
  (r.1, { total_processed := unmapped.length, mapped := r.2.1,
          not_found := r.2.2.1, errors := r.2.2.2 })

/-- Total size of the batches whose commit fails. -/
def failedPenalty (commitOk : Nat → Bool) : Nat → List (List PostalCode) → Nat
  | _, [] => 0
  | k, b :: bs => (if commitOk k then 0 else b.length) + failedPenalty commitOk (k + 1) bs

/-- Embedding of `reset_mapping` (service lines 399-427).  The first
statement of the `try` block calls `.count()` on the value of
`session.exec(select(...))`, and the next calls `.update({...})` on the
same shape of value; both methods belong to the legacy `session.query`
API and do not exist on the `ScalarResult` that `Session.exec` returns,
so the call raises `AttributeError` before touching any row.  The
`except` block rolls the session back and re-raises, so the operation
leaves the table unchanged and never produces a reset count: the result
is the unchanged table paired with `Except.error` in place of the count
the claim describes. -/
def reset_mapping (db : List PostalCode) : List PostalCode × Except Unit Nat :=
  (db, Except.error ())

/-- Statistics record of `get_mapping_statistics` (service lines 389-394).
The Python float rate is modelled as a rational. -/
structure MappingStatistics where
  total_postal_codes : Nat
  mapped_postal_codes : Nat
  unmapped_postal_codes : Int
  mapping_rate : ℚ

/-- Embedding of `get_mapping_statistics` (service lines 381-397). -/
def get_mapping_statistics (db : List PostalCode) : MappingStatistics :=
  let total := db.length
  let mapped := (db.filter (fun pc => pc.weather_area_id.isSome)).length
  { total_postal_codes := total
    mapped_postal_codes := mapped
    unmapped_postal_codes := (total : Int) - (mapped : Int)
    mapping_rate := if 0 < total then ((mapped : ℚ) / (total : ℚ)) * 100 else 0 }

/-- One-record already-unmapped table, used as the C3 failing input and in
the C1 and C4 witnesses. -/
def unmappedRecord : PostalCode :=
  { postal_code := "0000000", prefecture := "P", city := "C", town := "",
    weather_area_id := none }

/-- C3 (code bug): evaluated on the one-record already-unmapped table, the
reset operation leaves the table unchanged but raises instead of returning
the reset count `0` that its own docstring and return statement promise —
the `.count()`/`.update()` calls fail on every input, so no invocation of
the operation can return a count or clear a record. -/
theorem reset_mapping_raises :
    reset_mapping [unmappedRecord] = ([unmappedRecord], Except.error ()) :=
  rfl

/-- C8: the statistics record satisfies
`unmapped = total - mapped`, its rate lies in `[0, 100]`, and the rate is
`0` on an empty table. -/
theorem statistics_consistent (db : List PostalCode) :
    (get_mapping_statistics db).unmapped_postal_codes =
      ((get_mapping_statistics db).total_postal_codes : Int) -
        ((get_mapping_statistics db).mapped_postal_codes : Int) ∧
    0 ≤ (get_mapping_statistics db).mapping_rate ∧
    (get_mapping_statistics db).mapping_rate ≤ 100 ∧
    ((get_mapping_statistics db).total_postal_codes = 0 →
      (get_mapping_statistics db).mapping_rate = 0) := by
  have hm : (db.filter (fun pc => pc.weather_area_id.isSome)).length ≤ db.length :=
    List.length_filter_le _ _
  refine ⟨rfl, ?_, ?_, ?_⟩
  · simp only [get_mapping_statistics]
    split
    · positivity
    · exact le_refl 0
  · simp only [get_mapping_statistics]
    split
    case isTrue ht =>
      have ht' : (0 : ℚ) < (db.length : ℚ) := by exact_mod_cast ht
      have hm' : ((db.filter (fun pc => pc.weather_area_id.isSome)).length : ℚ) ≤
          (db.length : ℚ) := by exact_mod_cast hm
      rw [div_mul_eq_mul_div, div_le_iff₀ ht']
      nlinarith
    case isFalse => norm_num
  · intro h0
    simp only [get_mapping_statistics] at h0 ⊢
    simp [h0]

/-- Witness for C8 on the empty table: the rate is zero. -/
theorem statistics_consistent_witness : (get_mapping_statistics []).mapping_rate = 0 :=
  (statistics_consistent []).2.2.2 rfl

lemma processBatch_fst (find : PostalCode → Except Unit (Option WeatherArea)) :
    ∀ b : List PostalCode, (processBatch find b).1 = b.map (matcherStep find) := by
  intro b
  induction b with
  | nil => rfl
  | cons pc rest ih =>
    cases hf : find pc with
    | error e => simp [processBatch, matcherStep, hf, ih]
    | ok o =>
      cases o with
      | none => simp [processBatch, matcherStep, hf, ih]
      | some wa => simp [processBatch, matcherStep, hf, ih]

lemma processBatch_errors (find : PostalCode → Except Unit (Option WeatherArea)) :
    ∀ b : List PostalCode, (processBatch find b).2.2.2 = b.countP (isMatcherError find) := by
  intro b
  induction b with
  | nil => rfl
  | cons pc rest ih =>
    cases hf : find pc with
    | error e => simp [processBatch, isMatcherError, hf, ih, List.countP_cons]
    | ok o =>
      cases o with
      | none => simp [processBatch, isMatcherError, hf, ih, List.countP_cons]
      | some wa => simp [processBatch, isMatcherError, hf, ih, List.countP_cons]

lemma processBatch_len (find : PostalCode → Except Unit (Option WeatherArea)) :
    ∀ b : List PostalCode,
      (processBatch find b).2.1 + (processBatch find b).2.2.1 + (processBatch find b).2.2.2 =
        b.length := by
  intro b
  induction b with
  | nil => rfl
  | cons pc rest ih =>
    cases hf : find pc with
    | error e => simp [processBatch, hf]; omega
    | ok o =>
      cases o with
      | none => simp [processBatch, hf]; omega
      | some wa => simp [processBatch, hf]; omega

/-- Per-batch effect on the record list: a committed batch keeps its
processed contents, a rolled-back batch keeps its original contents. -/
def appliedBatches (find : PostalCode → Except Unit (Option WeatherArea))
    (commitOk : Nat → Bool) : Nat → List (List PostalCode) → List (List PostalCode)
  | _, [] => []
  | k, b :: bs =>
    (if commitOk k then b.map (matcherStep find) else b) ::
      appliedBatches find commitOk (k + 1) bs

lemma runBatches_fst (find : PostalCode → Except Unit (Option WeatherArea))
    (commitOk : Nat → Bool) : ∀ (bs : List (List PostalCode)) (k : Nat),
    (runBatches find commitOk k bs).1 = (appliedBatches find commitOk k bs).flatten := by
  intro bs
  induction bs with
  | nil => intro k; rfl
  | cons b rest ih =>
    intro k
    cases hc : commitOk k with
    | true => simp [runBatches, appliedBatches, hc, processBatch_fst, ih (k + 1)]
    | false => simp [runBatches, appliedBatches, hc, ih (k + 1)]

lemma runBatches_sum (find : PostalCode → Except Unit (Option WeatherArea))
    (commitOk : Nat → Bool) : ∀ (bs : List (List PostalCode)) (k : Nat),
    (runBatches find commitOk k bs).2.1 + (runBatches find commitOk k bs).2.2.1 +
        (runBatches find commitOk k bs).2.2.2 =
      (bs.map List.length).sum + failedPenalty commitOk k bs := by
  intro bs
  induction bs with
  | nil => intro k; rfl
  | cons b rest ih =>
    intro k
    have hb := processBatch_len find b
    have hr := ih (k + 1)
    cases hc : commitOk k with
    | true => simp [runBatches, failedPenalty, hc]; omega
    | false => simp [runBatches, failedPenalty, hc]; omega

lemma runBatches_errors (find : PostalCode → Except Unit (Option WeatherArea))
    (commitOk : Nat → Bool) : ∀ (bs : List (List PostalCode)) (k : Nat),
    (runBatches find commitOk k bs).2.2.2 =
      (bs.map (List.countP (isMatcherError find))).sum + failedPenalty commitOk k bs := by
  intro bs
  induction bs with
  | nil => intro k; rfl
  | cons b rest ih =>
    intro k
    have hb := processBatch_errors find b
    have hr := ih (k + 1)
    cases hc : commitOk k with
    | true => simp [runBatches, failedPenalty, hc]; omega
    | false => simp [runBatches, failedPenalty, hc]; omega

lemma chunksGo_flatten (bs : Nat) (hbs : 1 ≤ bs) :
    ∀ (fuel : Nat) (l : List PostalCode), l.length ≤ fuel →
      (chunksGo bs fuel l).flatten = l := by
  intro fuel
  induction fuel with
  | zero =>
    intro l hl
    have : l = [] := List.eq_nil_of_length_eq_zero (Nat.le_zero.mp hl)
    subst this
    rfl
  | succ n ih =>
    intro l hl
    cases l with
    | nil => rfl
    | cons pc rest =>
      have hlen1 : (pc :: rest).length = rest.length + 1 := List.length_cons pc rest
      rw [hlen1] at hl
      have hdrop : ((pc :: rest).drop bs).length ≤ n := by
        rw [List.length_drop, hlen1]
        omega
      simp only [chunksGo, List.flatten_cons, ih _ hdrop]
      exact List.take_append_drop bs (pc :: rest)

lemma chunks_flatten (l : List PostalCode) : (chunks 100 l).flatten = l :=
  chunksGo_flatten 100 (by omega) l.length l le_rfl

lemma sum_map_length_chunks (l : List PostalCode) :
    ((chunks 100 l).map List.length).sum = l.length := by
  have h := congrArg List.length (chunks_flatten l)
  rw [List.length_flatten] at h
  exact h

lemma countP_flatten (p : PostalCode → Bool) :
    ∀ ll : List (List PostalCode), ll.flatten.countP p = (ll.map (List.countP p)).sum := by
  intro ll
  induction ll with
  | nil => rfl
  | cons b rest ih => simp [List.countP_append, ih]

lemma failedPenalty_zero (commitOk : Nat → Bool) (h : ∀ k, commitOk k = true) :
    ∀ (bs : List (List PostalCode)) (k : Nat), failedPenalty commitOk k bs = 0 := by
  intro bs
  induction bs with
  | nil => intro k; rfl
  | cons b rest ih => intro k; simp [failedPenalty, h k, ih (k + 1)]

/-- Run of the C1 counterexample: one unmapped record, a matcher that finds
nothing, and a batch commit that fails. -/
def failingCommitRun : MappingResult :=
  (map_postal_codes_to_weather_areas (fun _ => Except.ok none) (fun _ => false)
    [unmappedRecord]).2

/-- C1 counterexample: with a single not-found record and a failed batch
commit, the record is counted once as `not_found` and once more in the
batch-failure penalty, so `mapped + not_found + errors = 2` while
`total_processed = 1`. -/
theorem stats_sum_cex :
    failingCommitRun =
      { total_processed := 1, mapped := 0, not_found := 1, errors := 1 } ∧
    failingCommitRun.mapped + failingCommitRun.not_found + failingCommitRun.errors ≠
      failingCommitRun.total_processed :=
  ⟨by decide, by decide⟩

/-- C1 (amended): the statistics record of a run always satisfies
`mapped + not_found + errors = total_processed + (total size of the batches
whose commit failed)` — the members of a failed batch are counted twice,
once by their per-record outcome and once by the batch-failure penalty — and
in particular the spec equation `mapped + not_found + errors =
total_processed` holds whenever every batch commit succeeds.  All four
fields are naturals, hence non-negative. -/
theorem run_stats_accounting (find : PostalCode → Except Unit (Option WeatherArea))
    (commitOk : Nat → Bool) (db : List PostalCode) :
    ((map_postal_codes_to_weather_areas find commitOk db).2.mapped +
        (map_postal_codes_to_weather_areas find commitOk db).2.not_found +
        (map_postal_codes_to_weather_areas find commitOk db).2.errors =
      (map_postal_codes_to_weather_areas find commitOk db).2.total_processed +
        failedPenalty commitOk 0 (chunks 100 (unmappedOf db))) ∧
    ((∀ k, commitOk k = true) →
      (map_postal_codes_to_weather_areas find commitOk db).2.mapped +
          (map_postal_codes_to_weather_areas find commitOk db).2.not_found +
          (map_postal_codes_to_weather_areas find commitOk db).2.errors =
        (map_postal_codes_to_weather_areas find commitOk db).2.total_processed) := by
  have hsum := runBatches_sum find commitOk (chunks 100 (unmappedOf db)) 0
  have hlen := sum_map_length_chunks (unmappedOf db)
  constructor
  · simp only [map_postal_codes_to_weather_areas]
    omega
  · intro hall
    have hpen := failedPenalty_zero commitOk hall (chunks 100 (unmappedOf db)) 0
    simp only [map_postal_codes_to_weather_areas]
    omega

/-- Witness for C1 (amended): a run with every commit succeeding satisfies
the spec equation. -/
theorem run_stats_accounting_witness :
    (map_postal_codes_to_weather_areas (fun _ => Except.ok none) (fun _ => true)
        [unmappedRecord]).2.mapped +
      (map_postal_codes_to_weather_areas (fun _ => Except.ok none) (fun _ => true)
        [unmappedRecord]).2.not_found +
      (map_postal_codes_to_weather_areas (fun _ => Except.ok none) (fun _ => true)
        [unmappedRecord]).2.errors =
    (map_postal_codes_to_weather_areas (fun _ => Except.ok none) (fun _ => true)
        [unmappedRecord]).2.total_processed :=
  (run_stats_accounting _ _ _).2 (fun _ => rfl)

/-- Relation used for C4: when the matcher raises on the left record, the
right record is that record unchanged. -/
def errRel (find : PostalCode → Except Unit (Option WeatherArea))
    (a b : PostalCode) : Prop :=
  find a = Except.error () → b = a

lemma matcherStep_err (find : PostalCode → Except Unit (Option WeatherArea))
    (pc : PostalCode) (h : find pc = Except.error ()) : matcherStep find pc = pc := by
  simp [matcherStep, h]

lemma forall₂_map_matcherStep (find : PostalCode → Except Unit (Option WeatherArea)) :
    ∀ b : List PostalCode, List.Forall₂ (errRel find) b (b.map (matcherStep find)) := by
  intro b
  induction b with
  | nil => exact List.Forall₂.nil
  | cons pc rest ih =>
    exact List.Forall₂.cons (fun h => matcherStep_err find pc h) ih

lemma forall₂_errRel_self (find : PostalCode → Except Unit (Option WeatherArea))
    (b : List PostalCode) : List.Forall₂ (errRel find) b b :=
  List.forall₂_same.mpr (fun _ _ _ => rfl)

lemma appliedBatches_rel (find : PostalCode → Except Unit (Option WeatherArea))
    (commitOk : Nat → Bool) : ∀ (bs : List (List PostalCode)) (k : Nat),
    List.Forall₂ (List.Forall₂ (errRel find)) bs (appliedBatches find commitOk k bs) := by
  intro bs
  induction bs with
  | nil => intro k; exact List.Forall₂.nil
  | cons b rest ih =>
    intro k
    refine List.Forall₂.cons ?_ (ih (k + 1))
    cases hc : commitOk k with
    | true => simpa [hc] using forall₂_map_matcherStep find b
    | false => simpa [hc] using forall₂_errRel_self find b

/-- C4: a matcher exception on one record is contained — the run still
processes every selected record (`total_processed` is the full backlog
size and the output list has one entry per selected record), a record on
which the matcher raised comes out of the run with its state unchanged,
and `errors` counts exactly the raising records plus the failed-batch
penalty. -/
theorem matcher_error_isolated (find : PostalCode → Except Unit (Option WeatherArea))
    (commitOk : Nat → Bool) (db : List PostalCode) :
    (map_postal_codes_to_weather_areas find commitOk db).1.length =
      (unmappedOf db).length ∧
    (∀ (i : Nat) (h1 : i < (unmappedOf db).length)
      (h2 : i < (map_postal_codes_to_weather_areas find commitOk db).1.length),
      find ((unmappedOf db).get ⟨i, h1⟩) = Except.error () →
      (map_postal_codes_to_weather_areas find commitOk db).1.get ⟨i, h2⟩ =
        (unmappedOf db).get ⟨i, h1⟩) ∧
    (map_postal_codes_to_weather_areas find commitOk db).2.errors =
      (unmappedOf db).countP (isMatcherError find) +
        failedPenalty commitOk 0 (chunks 100 (unmappedOf db)) ∧
    (map_postal_codes_to_weather_areas find commitOk db).2.total_processed =
      (unmappedOf db).length := by
  have hrel : List.Forall₂ (errRel find) (unmappedOf db)
      (map_postal_codes_to_weather_areas find commitOk db).1 := by
    have h1 := appliedBatches_rel find commitOk (chunks 100 (unmappedOf db)) 0
    have h2 := List.rel_flatten h1
    rw [chunks_flatten] at h2
    have h3 : (map_postal_codes_to_weather_areas find commitOk db).1 =
        (appliedBatches find commitOk 0 (chunks 100 (unmappedOf db))).flatten := by
      simp only [map_postal_codes_to_weather_areas]
      exact runBatches_fst find commitOk (chunks 100 (unmappedOf db)) 0
    rw [h3]
    exact h2
  have hlen := hrel.length_eq
  refine ⟨hlen.symm, ?_, ?_, rfl⟩
  · intro i h1 h2 herr
    rw [List.forall₂_iff_get] at hrel
    exact hrel.2 i h1 h2 herr
  · simp only [map_postal_codes_to_weather_areas]
    rw [runBatches_errors find commitOk (chunks 100 (unmappedOf db)) 0]
    rw [← countP_flatten, chunks_flatten]

/-- Raising record for the C4 witness. -/
def raisingRecord : PostalCode :=
  { postal_code := "1111111", prefecture := "P", city := "RAISE", town := "",
    weather_area_id := none }

/-- Matcher oracle for the C4 witness: raises exactly on `raisingRecord`. -/
def raisingFind (pc : PostalCode) : Except Unit (Option WeatherArea) :=
  if pc.city == "RAISE" then Except.error () else Except.ok none

/-- Witness for C4: in a two-record run whose first record makes the
matcher raise, that record comes out unchanged. -/
theorem matcher_error_isolated_witness :
    (map_postal_codes_to_weather_areas raisingFind (fun _ => true)
        [raisingRecord, unmappedRecord]).1.get ⟨0, by decide⟩ = raisingRecord :=
  (matcher_error_isolated raisingFind (fun _ => true) [raisingRecord, unmappedRecord]).2.1
    0 (by decide) (by decide) rfl
